import Mathlib

/-!
Verification of the WebUSB facade of node-usb (`src/tsc/webusb/index.ts`).

The development shallowly embeds the `WebUSB` class: its pure matching
helpers (`quickFilter`, `filterDevice`, `isAuthorisedDevice`), its stateful
operations (`loadDevices`, `getWebDevice`, `requestDevice`, `getDevices`,
`deviceDisconnectCallback`) as explicit state-passing functions, and the
listener-count-driven backend subscription logic of the constructor as a
small state machine.  The external collaborators (the raw `usb` backend and
`WebUSBDevice.createInstance`) are modelled as parameters: the current raw
device list is passed in, and adaptation is an arbitrary function
`RawDevice -> Option WebUSBDevice` (failure of `createInstance` is `none`).

JavaScript truthiness of optional filter fields matters throughout
(`filter.vendorId && ...` skips the check for `0`, `undefined` and the
empty string), so optional numeric fields are `Option Nat` together with a
truthiness predicate, and optional strings are `Option String`.
-/

/-- `alternate` view of an interface: the active alternate setting class
triple (`USBAlternateInterface`). -/
structure USBAlternateInterface where
  interfaceClass : Nat
  interfaceSubclass : Nat
  interfaceProtocol : Nat
deriving DecidableEq, Repr

/-- An interface of the active configuration; only the active alternate is
consulted by `filterDevice`. -/
structure USBInterface where
  alternate : USBAlternateInterface
deriving DecidableEq, Repr

/-- The active configuration of an adapted device. -/
structure USBConfiguration where
  interfaces : List USBInterface
deriving DecidableEq, Repr

/-- The WebUSB-shaped adapted device (`WebUSBDevice`): the fields read by
`filterDevice`, `isAuthorisedDevice` and the authorisation snapshot.
`configuration` is optional, as in the WebUSB `USBDevice` type: the source
guards on `device.configuration` being falsy. -/
structure WebUSBDevice where
  vendorId : Nat
  productId : Nat
  deviceClass : Nat
  deviceSubclass : Nat
  deviceProtocol : Nat
  serialNumber : Option String
  configuration : Option USBConfiguration
deriving DecidableEq, Repr

/-- The `deviceDescriptor` fields of a raw backend device that
`quickFilter` reads. -/
structure DeviceDescriptor where
  idVendor : Nat
  idProduct : Nat
deriving DecidableEq, Repr

/-- A raw `usb.Device` backend handle.  `handle` models the JavaScript
object identity used as the `knownDevices` map key. -/
structure RawDevice where
  handle : Nat
  deviceDescriptor : DeviceDescriptor
deriving DecidableEq, Repr

/-- `USBDeviceFilter`: every field optional.  The same shape is stored in
`authorisedDevices` as an authorisation snapshot. -/
structure USBDeviceFilter where
  vendorId : Option Nat := none
  productId : Option Nat := none
  classCode : Option Nat := none
  subclassCode : Option Nat := none
  protocolCode : Option Nat := none
  serialNumber : Option String := none
deriving DecidableEq, Repr

/-- JavaScript truthiness of an optional numeric field: `undefined` and `0`
are falsy. -/
def natTruthy : Option Nat → Bool
  | none => false
  | some n => n != 0

/-- JavaScript truthiness of an optional string field: `undefined` and the
empty string are falsy. -/
def strTruthy : Option String → Bool
  | none => false
  | some s => s != ""

/-- Per-filter test of `quickFilter` (source lines 292-302): only the
`vendorId` / `productId` fields are consulted, each only when truthy. -/
def quickMatch (device : RawDevice) (filter : USBDeviceFilter) : Bool :=
  if natTruthy filter.vendorId && (filter.vendorId != some device.deviceDescriptor.idVendor) then
    false
  else if natTruthy filter.productId && (filter.productId != some device.deviceDescriptor.idProduct) then
    false
  else
    true

/-- `quickFilter` (source lines 286-303): with no pre-filters (or an empty
list) the input is returned unchanged; otherwise a device survives when
some pre-filter quick-matches it. -/
def quickFilter (devices : List RawDevice) (preFilters : Option (List USBDeviceFilter)) :
    List RawDevice :=
  match preFilters with
  | none => devices
  | some fs =>
    if fs.isEmpty then devices
    else devices.filter (fun device => fs.any (quickMatch device))

/-- The interface-level test inside `filterDevice` (source lines 326-337):
each of class/subclass/protocol is compared against the active alternate,
only when truthy. -/
def ifaceMatch (filter : USBDeviceFilter) (iface : USBInterface) : Bool :=
  if natTruthy filter.classCode && (filter.classCode != some iface.alternate.interfaceClass) then
    false
  else if natTruthy filter.subclassCode && (filter.subclassCode != some iface.alternate.interfaceSubclass) then
    false
  else if natTruthy filter.protocolCode && (filter.protocolCode != some iface.alternate.interfaceProtocol) then
    false
  else
    true

/-- The trailing device-level checks of `filterDevice` (source lines
344-356): class, subclass, protocol, then serial number, each only when the
filter field is truthy. -/
def deviceLevelMatch (device : WebUSBDevice) (filter : USBDeviceFilter) : Bool :=
  if natTruthy filter.classCode && (filter.classCode != some device.deviceClass) then
    false
  else if natTruthy filter.subclassCode && (filter.subclassCode != some device.deviceSubclass) then
    false
  else if natTruthy filter.protocolCode && (filter.protocolCode != some device.deviceProtocol) then
    false
  else if strTruthy filter.serialNumber && (filter.serialNumber != device.serialNumber) then
    false
  else
    true

/-- The per-filter body of `filterDevice` (source lines 311-357).  When
`classCode` is truthy: a device without a configuration is rejected; an
interface-level match succeeds immediately (skipping the remaining checks,
serial number included); otherwise the device-level checks run. -/
def matchesFilter (device : WebUSBDevice) (filter : USBDeviceFilter) : Bool :=
  if natTruthy filter.vendorId && (filter.vendorId != some device.vendorId) then
    false
  else if natTruthy filter.productId && (filter.productId != some device.productId) then
    false
  else if natTruthy filter.classCode then
    match device.configuration with
    | none => false
    | some config =>
      if config.interfaces.any (ifaceMatch filter) then true
      else deviceLevelMatch device filter
  else
    deviceLevelMatch device filter

/-- `filterDevice` (source lines 306-358): with no filters (or an empty
list) every device matches; otherwise some filter must match. -/
def filterDevice (device : WebUSBDevice) (filters : Option (List USBDeviceFilter)) : Bool :=
  match filters with
  | none => true
  | some fs =>
    if fs.isEmpty then true
    else fs.any (matchesFilter device)

/-- `USBOptions` passed to the `WebUSB` constructor.  `devicesFound` is the
optional selection callback; it may fail (`Except.error`) or return no
device (`Except.ok none`).  `deviceTimeout` and `autoDetachKernelDriver`
are only forwarded to the external adapter, which is modelled as an
abstract `adapt` parameter, so they carry no behaviour here. -/
structure USBOptions where
  devicesFound : Option (List WebUSBDevice → Except Unit (Option WebUSBDevice)) := none
  allowedDevices : Option (List USBDeviceFilter) := none
  allowAllDevices : Bool := false
  deviceTimeout : Option Nat := none
  autoDetachKernelDriver : Option Bool := none

/-- Errors thrown by `requestDevice`: `TypeError`s for malformed input and
the `NamedError` with name `NotFoundError`. -/
inductive USBError where
  | typeError (message : String)
  | notFoundError (message : String)
deriving DecidableEq, Repr

/-- The message of every `NotFoundError` thrown by `requestDevice` (the
same string at all three throw sites, source lines 205, 213 and 227). -/
def noDeviceSelectedMessage : String :=
  "Failed to execute requestDevice on USB: No device selected."

/-- Hierarchy validation of one filter (source lines 189-199):
`protocolCode` truthy without truthy `subclassCode`, then `subclassCode`
truthy without truthy `classCode`, are `TypeError`s. -/
def filterHierarchyError (filter : USBDeviceFilter) : Option USBError :=
  if natTruthy filter.protocolCode && !natTruthy filter.subclassCode then
    some (USBError.typeError "requestDevice error: subclass code is required")
  else if natTruthy filter.subclassCode && !natTruthy filter.classCode then
    some (USBError.typeError "requestDevice error: class code is required")
  else
    none

/-- The `options.filters.forEach` validation loop: the first offending
filter in list order determines the thrown error. -/
def checkFilters : List USBDeviceFilter → Option USBError
  | [] => none
  | f :: fs =>
    match filterHierarchyError f with
    | some e => some e
    | none => checkFilters fs

/-- `knownDevices` is a JavaScript `Map` keyed by raw device identity; it
is embedded as an insertion-ordered association list. -/
def KnownMap : Type := List (RawDevice × WebUSBDevice)

/-- `Map.get`. -/
def mapGet : KnownMap → RawDevice → Option WebUSBDevice
  | [], _ => none
  | (k, v) :: rest, r => if k = r then some v else mapGet rest r

/-- `Map.set`: updates an existing key in place, appends a new key at the
end (JavaScript `Map` insertion-order semantics). -/
def mapSet : KnownMap → RawDevice → WebUSBDevice → KnownMap
  | [], k, v => [(k, v)]
  | (k', v') :: rest, k, v =>
    if k' = k then (k', v) :: rest else (k', v') :: mapSet rest k v

/-- `[...map.values()]` in insertion order. -/
def mapValues (m : KnownMap) : List WebUSBDevice :=
  m.map (fun p => p.2)

/-- The mutable state of a `WebUSB` instance: the `knownDevices` cache and
the `authorisedDevices` set.  The JavaScript `Set` holds a fresh object
literal per `add`, so it never deduplicates and is embedded as an
insertion-ordered list. -/
structure WebUSBState where
  knownDevices : KnownMap
  authorisedDevices : List USBDeviceFilter

/-- The authorisation snapshot recorded by `requestDevice` (source lines
216-223). -/
def snapshotOf (device : WebUSBDevice) : USBDeviceFilter :=
  { vendorId := some device.vendorId
    productId := some device.productId
    classCode := some device.deviceClass
    subclassCode := some device.deviceSubclass
    protocolCode := some device.deviceProtocol
    serialNumber := device.serialNumber }

/-- The exact-equality snapshot test of `isAuthorisedDevice` (source lines
373-380): strict `===` on all six fields. -/
def authorisedMatches (authorised : USBDeviceFilter) (device : WebUSBDevice) : Bool :=
  authorised.vendorId == some device.vendorId
    && authorised.productId == some device.productId
    && authorised.classCode == some device.deviceClass
    && authorised.subclassCode == some device.deviceSubclass
    && authorised.protocolCode == some device.deviceProtocol
    && authorised.serialNumber == device.serialNumber

/-- `isAuthorisedDevice` (source lines 361-381).  Note that a present but
empty `allowedDevices` array is truthy in JavaScript and `filterDevice`
with an empty list returns `true`, so it authorises everything. -/
def isAuthorisedDevice (opts : USBOptions) (authorisedDevices : List USBDeviceFilter)
    (device : WebUSBDevice) : Bool :=
  if opts.allowAllDevices then true
  else if opts.allowedDevices.isSome && filterDevice device opts.allowedDevices then true
  else authorisedDevices.any (fun a => authorisedMatches a device)

/-- `getWebDevice` (source lines 268-283): reuse the cached adapted device,
otherwise try the external adapter and cache a success; adaptation failure
is swallowed and the cache left unchanged.  Returns the updated
`knownDevices` and `knownDevices.get(device)`. -/
def getWebDevice (adapt : RawDevice → Option WebUSBDevice) (known : KnownMap)
    (device : RawDevice) : KnownMap × Option WebUSBDevice :=
  let known' :=
    if (mapGet known device).isSome then known
    else
      match adapt device with
      | some webDevice => mapSet known device webDevice
      | none => known
  (known', mapGet known' device)

/-- The `for (const device of devices)` loop of `loadDevices` (source lines
252-258), threading the intermediate `knownDevices` written by
`getWebDevice` and the `refreshedKnownDevices` map. -/
def loadDevicesLoop (adapt : RawDevice → Option WebUSBDevice) :
    List RawDevice → KnownMap → KnownMap → KnownMap × KnownMap
  | [], known, refreshed => (known, refreshed)
  | device :: rest, known, refreshed =>
    let step := getWebDevice adapt known device
    let refreshed' :=
      match step.2 with
      | some webDevice => mapSet refreshed device webDevice
      | none => refreshed
    loadDevicesLoop adapt rest step.1 refreshed'

/-- `loadDevices` (source lines 244-264): quick-filter the backend list,
adapt the survivors, replace `knownDevices` wholesale by the refreshed map
(dropping devices that are no longer enumerated) and return its values. -/
def loadDevices (adapt : RawDevice → Option WebUSBDevice) (st : WebUSBState)
    (rawList : List RawDevice) (preFilters : Option (List USBDeviceFilter)) :
    WebUSBState × List WebUSBDevice :=
  let devices := quickFilter rawList preFilters
  let result := loadDevicesLoop adapt devices st.knownDevices []
  ({ knownDevices := result.2, authorisedDevices := st.authorisedDevices },
    mapValues result.2)

/-- Options argument of `requestDevice`; the runtime `!options.filters`
check makes `filters` effectively optional. -/
structure USBDeviceRequestOptions where
  filters : Option (List USBDeviceFilter) := none

/-- Result of a `requestDevice` call: the returned device or thrown error,
the final state, and the number of backend enumerations performed
(`loadDevices` calls, the only site that touches the backend or the
adapter). -/
structure RequestOutcome where
  result : Except USBError WebUSBDevice
  state : WebUSBState
  backendCalls : Nat

/-- The selection step of `requestDevice` (source lines 204-228), given
the already filtered candidate list.  With no `devicesFound` callback the
first candidate is chosen; a callback failure, like a callback returning
no device, is normalised by the `catch` block to the same
`NotFoundError`. -/
def selectOutcome (opts : USBOptions) (st1 : WebUSBState) (devices : List WebUSBDevice) :
    RequestOutcome :=
  if devices.isEmpty then
    ⟨Except.error (USBError.notFoundError noDeviceSelectedMessage), st1, 1⟩
  else
    let selected :=
      match opts.devicesFound with
      | some callback => callback devices
      | none => Except.ok devices.head?
    match selected with
    | Except.error _ =>
      ⟨Except.error (USBError.notFoundError noDeviceSelectedMessage), st1, 1⟩
    | Except.ok none =>
      ⟨Except.error (USBError.notFoundError noDeviceSelectedMessage), st1, 1⟩
    | Except.ok (some device) =>
      ⟨Except.ok device,
        { st1 with authorisedDevices := st1.authorisedDevices ++ [snapshotOf device] },
        1⟩

/-- The body of `requestDevice` after input validation (source lines
201-228): load the devices with the request filters as pre-filter, filter
them fully, then run the selection step. -/
def requestDeviceChecked (adapt : RawDevice → Option WebUSBDevice) (opts : USBOptions)
    (st : WebUSBState) (rawList : List RawDevice) (fs : List USBDeviceFilter) :
    RequestOutcome :=
  let loaded := loadDevices adapt st rawList (some fs)
  let devices := loaded.2.filter (fun device => filterDevice device (some fs))
  selectOutcome opts loaded.1 devices

/-- `requestDevice` (source lines 167-229).  The `options.constructor` and
`filters.constructor` checks are type-level in this embedding; the missing
argument and missing `filters` member checks are the two `none` cases. -/
def requestDevice (adapt : RawDevice → Option WebUSBDevice) (opts : USBOptions)
    (st : WebUSBState) (rawList : List RawDevice)
    (options : Option USBDeviceRequestOptions) : RequestOutcome :=
  match options with
  | none =>
    ⟨Except.error (USBError.typeError "requestDevice error: 1 argument required, but only 0 present"),
      st, 0⟩
  | some o =>
    match o.filters with
    | none =>
      ⟨Except.error (USBError.typeError "requestDevice error: required member filters is undefined"),
        st, 0⟩
    | some fs =>
      match checkFilters fs with
      | some e => ⟨Except.error e, st, 0⟩
      | none => requestDeviceChecked adapt opts st rawList fs

/-- `getDevices` (source lines 235-242): under `allowAllDevices` no
pre-filter is applied, otherwise `allowedDevices` is used as the
pre-filter; the loaded devices are then gated by `isAuthorisedDevice`. -/
def getDevices (adapt : RawDevice → Option WebUSBDevice) (opts : USBOptions)
    (st : WebUSBState) (rawList : List RawDevice) : WebUSBState × List WebUSBDevice :=
  let preFilters := if opts.allowAllDevices then none else opts.allowedDevices
  let loaded := loadDevices adapt st rawList preFilters
  (loaded.1, loaded.2.filter (fun device => isAuthorisedDevice opts loaded.1.authorisedDevices device))

/-- Outcome of the raw `detach` callback: the payload devices of the
emitted `disconnect` events, and the state afterwards. -/
structure DisconnectOutcome where
  events : List WebUSBDevice
  state : WebUSBState

/-- `deviceDisconnectCallback` (source lines 74-88): when the raw device is
a known device whose cached adapted device is authorised, emit `disconnect`
carrying the cached device.  The callback never mutates `knownDevices` or
`authorisedDevices`. -/
def deviceDisconnectCallback (opts : USBOptions) (st : WebUSBState) (device : RawDevice) :
    DisconnectOutcome :=
  if (mapGet st.knownDevices device).isSome then
    match mapGet st.knownDevices device with
    | some webDevice =>
      if isAuthorisedDevice opts st.authorisedDevices webDevice then
        ⟨[webDevice], st⟩
      else
        ⟨[], st⟩
    | none => ⟨[], st⟩
  else
    ⟨[], st⟩

/-- A listener registration or removal on one notification channel.
Listeners are identified by a number (JavaScript function identity). -/
inductive ListenerOp where
  | add (l : Nat)
  | remove (l : Nat)
deriving DecidableEq, Repr

/-- A backend subscription action performed by the constructor's
`newListener` / `removeListener` hooks (`usb.addListener('attach', ...)` /
`usb.removeListener('attach', ...)`). -/
inductive BackendEffect where
  | subscribe
  | unsubscribe
deriving DecidableEq, Repr

/-- State of one notification channel: the emitter's listener list for that
event and whether the backend raw event is currently subscribed. -/
structure ChannelState where
  listeners : List Nat
  subscribed : Bool
deriving DecidableEq, Repr

/-- Channel state of a freshly constructed `WebUSB`. -/
def initChannel : ChannelState := ⟨[], false⟩

/-- `emitter.addListener`: Node fires the `newListener` hook before
inserting, so the hook (source lines 90-102) sees the pre-insert count and
subscribes to the backend exactly when that count is zero. -/
def channelAdd (ch : ChannelState) (l : Nat) : ChannelState × List BackendEffect :=
  if ch.listeners.length != 0 then
    (⟨ch.listeners ++ [l], ch.subscribed⟩, [])
  else
    (⟨ch.listeners ++ [l], true⟩, [BackendEffect.subscribe])

/-- `emitter.removeListener`: removes at most one matching listener; Node
fires the `removeListener` hook only when something was removed and after
removal, so the hook (source lines 104-116) sees the post-removal count and
unsubscribes exactly when it is zero. -/
def channelRemove (ch : ChannelState) (l : Nat) : ChannelState × List BackendEffect :=
  if ch.listeners.contains l then
    let listeners' := ch.listeners.erase l
    if listeners'.length != 0 then
      (⟨listeners', ch.subscribed⟩, [])
    else
      (⟨listeners', false⟩, [BackendEffect.unsubscribe])
  else
    (ch, [])

/-- One `addEventListener` / `removeEventListener` call on the channel. -/
def channelStep (ch : ChannelState) : ListenerOp → ChannelState × List BackendEffect
  | ListenerOp.add l => channelAdd ch l
  | ListenerOp.remove l => channelRemove ch l

/-- Run a sequence of listener operations, collecting the backend
subscription effects in order. -/
def channelRun (ch : ChannelState) : List ListenerOp → ChannelState × List BackendEffect
  | [] => (ch, [])
  | op :: ops =>
    let first := channelStep ch op
    let rest := channelRun first.1 ops
    (rest.1, first.2 ++ rest.2)

/-- Specification-side listener list evolution: add appends, remove erases
one occurrence when present. -/
def listenersAfterOp (ls : List Nat) : ListenerOp → List Nat
  | ListenerOp.add l => ls ++ [l]
  | ListenerOp.remove l => if ls.contains l then ls.erase l else ls

/-- Specification-side effects of one listener-count transition: exactly
one subscription when the count leaves zero, exactly one unsubscription
when it returns to zero, nothing otherwise. -/
def edgeEffects (before after : Nat) : List BackendEffect :=
  if before == 0 && after != 0 then [BackendEffect.subscribe]
  else if before != 0 && after == 0 then [BackendEffect.unsubscribe]
  else []

/-- Specification-side effect trace over a whole operation sequence. -/
def specEffects (ls : List Nat) : List ListenerOp → List BackendEffect
  | [] => []
  | op :: ops =>
    let ls' := listenersAfterOp ls op
    edgeEffects ls.length ls'.length ++ specEffects ls' ops

/-- The class-triple test of claim C3, device level: each field, when
truthy, must equal the device's top-level field. -/
def classTripleDeviceLevel (device : WebUSBDevice) (filter : USBDeviceFilter) : Bool :=
  (!natTruthy filter.classCode || filter.classCode == some device.deviceClass)
    && (!natTruthy filter.subclassCode || filter.subclassCode == some device.deviceSubclass)
    && (!natTruthy filter.protocolCode || filter.protocolCode == some device.deviceProtocol)

/-- The class-triple test at one interface, written as the specification
phrases it (equivalent to the source's `ifaceMatch`). -/
def ifaceTripleSpec (filter : USBDeviceFilter) (iface : USBInterface) : Bool :=
  (!natTruthy filter.classCode || filter.classCode == some iface.alternate.interfaceClass)
    && (!natTruthy filter.subclassCode || filter.subclassCode == some iface.alternate.interfaceSubclass)
    && (!natTruthy filter.protocolCode || filter.protocolCode == some iface.alternate.interfaceProtocol)

/-- The class-triple test of claim C3, interface level: some interface's
active alternate satisfies all three (truthy) fields. -/
def classTripleIfaceLevel (device : WebUSBDevice) (filter : USBDeviceFilter) : Bool :=
  match device.configuration with
  | none => false
  | some config => config.interfaces.any (ifaceTripleSpec filter)

/-- Claim C3's per-filter matcher, exactly as the claim states it:
vendorId/productId/serialNumber (when specified) equal the device's fields,
AND the class triple is satisfied at device level or at interface level. -/
def matchesFilterClaim (device : WebUSBDevice) (filter : USBDeviceFilter) : Bool :=
  (!natTruthy filter.vendorId || filter.vendorId == some device.vendorId)
    && (!natTruthy filter.productId || filter.productId == some device.productId)
    && (!strTruthy filter.serialNumber || filter.serialNumber == device.serialNumber)
    && (classTripleDeviceLevel device filter || classTripleIfaceLevel device filter)

/-- The amended per-filter matcher: vendorId/productId (when specified)
must equal; with `classCode` specified the device must have a
configuration, an interface-level class-triple match succeeds without
consulting the serial number, and otherwise the device-level triple and the
serial number (when specified) must agree. -/
def matchesFilterAmended (device : WebUSBDevice) (filter : USBDeviceFilter) : Bool :=
  (!natTruthy filter.vendorId || filter.vendorId == some device.vendorId)
    && (!natTruthy filter.productId || filter.productId == some device.productId)
    && ((natTruthy filter.classCode && classTripleIfaceLevel device filter)
        || ((!natTruthy filter.classCode || device.configuration.isSome)
            && classTripleDeviceLevel device filter
            && (!strTruthy filter.serialNumber || filter.serialNumber == device.serialNumber)))

/-! Concrete fixtures used by witnesses and counterexamples. -/

def serialX : String := "X"

def serialY : String := "Y"

/-- Raw backend device with vendor 0x1234, product 0x5678. -/
def rawA : RawDevice :=
  { handle := 0, deviceDescriptor := { idVendor := 0x1234, idProduct := 0x5678 } }

/-- Adapted view of `rawA`. -/
def deviceA : WebUSBDevice :=
  { vendorId := 0x1234, productId := 0x5678, deviceClass := 0, deviceSubclass := 0,
    deviceProtocol := 0, serialNumber := none,
    configuration := some { interfaces := [] } }

/-- Adapter that adapts exactly `rawA`, to `deviceA`. -/
def adaptA : RawDevice → Option WebUSBDevice :=
  fun r => if r = rawA then some deviceA else none

def optsEmpty : USBOptions := {}

def optsAllowAll : USBOptions := { allowAllDevices := true }

def stEmpty : WebUSBState := ⟨[], []⟩

/-- State whose `knownDevices` cache already holds `rawA ↦ deviceA`. -/
def stKnownA : WebUSBState := ⟨[(rawA, deviceA)], []⟩

/-- Request options selecting vendor 0x1234. -/
def reqOptsA : USBDeviceRequestOptions := ⟨some [{ vendorId := some 0x1234 }]⟩

/-- Composite device of claim C3's counterexample: class only at interface
level, serial number `Y`. -/
def deviceC3 : WebUSBDevice :=
  { vendorId := 1, productId := 1, deviceClass := 0, deviceSubclass := 0,
    deviceProtocol := 0, serialNumber := some serialY,
    configuration := some { interfaces :=
      [{ alternate := { interfaceClass := 3, interfaceSubclass := 0, interfaceProtocol := 0 } }] } }

/-- Filter of claim C3's counterexample: class 3 and serial number `X`. -/
def filterC3 : USBDeviceFilter := { classCode := some 3, serialNumber := some serialX }

/-- `allowedDevices` configuration whose single filter matches no fixture
device. -/
def optsC1 : USBOptions := { allowedDevices := some [{ vendorId := some 0x9999 }] }

theorem mapGet_set_self (m : KnownMap) (k : RawDevice) (v : WebUSBDevice) :
    mapGet (mapSet m k v) k = some v := by
  induction m with
  | nil => simp [mapSet, mapGet]
  | cons p rest ih =>
    obtain ⟨k', v'⟩ := p
    by_cases h : k' = k
    · simp [mapSet, mapGet, h]
    · simp [mapSet, mapGet, h, ih]

theorem mapGet_set_ne (m : KnownMap) (k r : RawDevice) (v : WebUSBDevice) (h : r ≠ k) :
    mapGet (mapSet m k v) r = mapGet m r := by
  induction m with
  | nil =>
    have hkr : ¬k = r := fun hh => h hh.symm
    simp [mapSet, mapGet, hkr]
  | cons p rest ih =>
    obtain ⟨k', v'⟩ := p
    by_cases hk : k' = k
    · subst hk
      have hkr : ¬k' = r := fun hh => h hh.symm
      simp [mapSet, mapGet, hkr]
    · simp [mapSet, mapGet, hk, ih]

theorem mapGet_mem_values (m : KnownMap) (r : RawDevice) (d : WebUSBDevice)
    (h : mapGet m r = some d) : d ∈ mapValues m := by
  induction m with
  | nil => simp [mapGet] at h
  | cons p rest ih =>
    obtain ⟨k', v'⟩ := p
    by_cases hk : k' = r
    · simp [mapGet, hk] at h
      simp [mapValues, h]
    · simp [mapGet, hk] at h
      simp [mapValues] at ih ⊢
      exact Or.inr (ih h)

theorem getWebDevice_preserves_some (adapt : RawDevice → Option WebUSBDevice)
    (known : KnownMap) (d' r : RawDevice) (d : WebUSBDevice)
    (h : mapGet known r = some d) :
    mapGet (getWebDevice adapt known d').1 r = some d := by
  unfold getWebDevice
  by_cases hh : (mapGet known d').isSome
  · simp [hh, h]
  · simp [hh]
    cases ha : adapt d' with
    | none => simpa using h
    | some w =>
      simp only
      have hne : r ≠ d' := by
        intro he
        subst he
        rw [h] at hh
        simp at hh
      rw [mapGet_set_ne _ _ _ _ hne]
      exact h

theorem getWebDevice_preserves_none (adapt : RawDevice → Option WebUSBDevice)
    (known : KnownMap) (d' r : RawDevice) (hne : r ≠ d')
    (h : mapGet known r = none) :
    mapGet (getWebDevice adapt known d').1 r = none := by
  unfold getWebDevice
  by_cases hh : (mapGet known d').isSome
  · simp [hh, h]
  · simp [hh]
    cases ha : adapt d' with
    | none => simpa using h
    | some w =>
      simp only
      rw [mapGet_set_ne _ _ _ _ hne]
      exact h

theorem getWebDevice_self_some (adapt : RawDevice → Option WebUSBDevice)
    (known : KnownMap) (r : RawDevice) (d : WebUSBDevice)
    (h : mapGet known r = some d) :
    getWebDevice adapt known r = (known, some d) := by
  unfold getWebDevice
  simp [h]

theorem getWebDevice_self_adapt (adapt : RawDevice → Option WebUSBDevice)
    (known : KnownMap) (r : RawDevice) (d : WebUSBDevice)
    (hnone : mapGet known r = none) (ha : adapt r = some d) :
    getWebDevice adapt known r = (mapSet known r d, some d) := by
  unfold getWebDevice
  simp [hnone, ha, mapGet_set_self]

/-- During the `loadDevices` loop, a raw device whose adapted device is
already cached (or is freshly adaptable) and that is among the devices
still to process (or already copied into the refreshed map) ends up in the
refreshed map with that adapted device. -/
theorem loadDevicesLoop_get (adapt : RawDevice → Option WebUSBDevice)
    (r : RawDevice) (d : WebUSBDevice) :
    ∀ (ds : List RawDevice) (known refreshed : KnownMap),
    (mapGet known r = some d ∨ (mapGet known r = none ∧ adapt r = some d)) →
    (r ∈ ds ∨ mapGet refreshed r = some d) →
    mapGet (loadDevicesLoop adapt ds known refreshed).2 r = some d := by
  intro ds
  induction ds with
  | nil =>
    intro known refreshed _ hMem
    rcases hMem with hMem | hMem
    · simp at hMem
    · simpa [loadDevicesLoop] using hMem
  | cons d' rest ih =>
    intro known refreshed hP hMem
    by_cases hdr : d' = r
    · subst hdr
      rcases hP with hsome | ⟨hnone, hadapt⟩
      · rw [loadDevicesLoop, getWebDevice_self_some adapt known d' d hsome]
        exact ih known (mapSet refreshed d' d) (Or.inl hsome)
          (Or.inr (mapGet_set_self refreshed d' d))
      · rw [loadDevicesLoop, getWebDevice_self_adapt adapt known d' d hnone hadapt]
        exact ih (mapSet known d' d) (mapSet refreshed d' d)
          (Or.inl (mapGet_set_self known d' d))
          (Or.inr (mapGet_set_self refreshed d' d))
    · rw [loadDevicesLoop]
      have hne : r ≠ d' := fun hh => hdr hh.symm
      have hP' : mapGet (getWebDevice adapt known d').1 r = some d ∨
          (mapGet (getWebDevice adapt known d').1 r = none ∧ adapt r = some d) := by
        rcases hP with hsome | ⟨hnone, hadapt⟩
        · exact Or.inl (getWebDevice_preserves_some adapt known d' r d hsome)
        · exact Or.inr ⟨getWebDevice_preserves_none adapt known d' r hne hnone, hadapt⟩
      rcases hMem with hMem | hMem
      · rcases List.mem_cons.mp hMem with hEq | hTail
        · exact absurd hEq.symm hdr
        · exact ih _ _ hP' (Or.inl hTail)
      · refine ih _ _ hP' (Or.inr ?_)
        cases hw : (getWebDevice adapt known d').2 with
        | none => simpa [hw] using hMem
        | some w =>
          simp only [hw]
          rw [mapGet_set_ne _ _ _ _ hne]
          exact hMem

theorem filterHierarchyError_typeError (f : USBDeviceFilter) (e : USBError)
    (h : filterHierarchyError f = some e) : ∃ msg, e = USBError.typeError msg := by
  unfold filterHierarchyError at h
  split at h
  · exact ⟨_, (Option.some.inj h).symm⟩
  · split at h
    · exact ⟨_, (Option.some.inj h).symm⟩
    · cases h

theorem checkFilters_typeError (fs : List USBDeviceFilter) (e : USBError)
    (h : checkFilters fs = some e) : ∃ msg, e = USBError.typeError msg := by
  induction fs with
  | nil => cases h
  | cons f rest ih =>
    unfold checkFilters at h
    cases hf : filterHierarchyError f with
    | some e' =>
      rw [hf] at h
      exact filterHierarchyError_typeError f e (by rw [hf, Option.some.inj h])
    | none =>
      rw [hf] at h
      exact ih h

theorem filterHierarchyError_of_bad (f : USBDeviceFilter)
    (h : (natTruthy f.protocolCode = true ∧ natTruthy f.subclassCode = false)
        ∨ (natTruthy f.subclassCode = true ∧ natTruthy f.classCode = false)) :
    ∃ e, filterHierarchyError f = some e := by
  rcases h with ⟨hp, hs⟩ | ⟨hs, hc⟩
  · refine ⟨USBError.typeError "requestDevice error: subclass code is required", ?_⟩
    simp [filterHierarchyError, hp, hs]
  · refine ⟨USBError.typeError "requestDevice error: class code is required", ?_⟩
    unfold filterHierarchyError
    rw [hs, hc]
    simp

theorem checkFilters_of_bad (fs : List USBDeviceFilter)
    (h : ∃ f ∈ fs, (natTruthy f.protocolCode = true ∧ natTruthy f.subclassCode = false)
        ∨ (natTruthy f.subclassCode = true ∧ natTruthy f.classCode = false)) :
    ∃ e, checkFilters fs = some e := by
  induction fs with
  | nil => simp at h
  | cons f rest ih =>
    obtain ⟨g, hg, hbad⟩ := h
    unfold checkFilters
    cases hf : filterHierarchyError f with
    | some e => exact ⟨e, rfl⟩
    | none =>
      rcases List.mem_cons.mp hg with hEq | hTail
      · subst hEq
        obtain ⟨e, he⟩ := filterHierarchyError_of_bad g hbad
        rw [hf] at he
        cases he
      · exact ih ⟨g, hTail, hbad⟩

theorem authorisedMatches_snapshot (device : WebUSBDevice) :
    authorisedMatches (snapshotOf device) device = true := by
  simp [authorisedMatches, snapshotOf]

theorem isAuthorisedDevice_of_snapshot (opts : USBOptions)
    (auths : List USBDeviceFilter) (device : WebUSBDevice)
    (h : snapshotOf device ∈ auths) :
    isAuthorisedDevice opts auths device = true := by
  unfold isAuthorisedDevice
  split
  · rfl
  · split
    · rfl
    · exact List.any_eq_true.mpr ⟨snapshotOf device, h, authorisedMatches_snapshot device⟩

theorem loadDevices_authorised (adapt : RawDevice → Option WebUSBDevice)
    (st : WebUSBState) (rawList : List RawDevice)
    (preFilters : Option (List USBDeviceFilter)) :
    (loadDevices adapt st rawList preFilters).1.authorisedDevices = st.authorisedDevices := rfl

/-- Anatomy of the selection step: it either throws, leaving
`authorisedDevices` untouched, or returns a device after appending exactly
that device's snapshot. -/
theorem selectOutcome_cases (opts : USBOptions) (st1 : WebUSBState)
    (devices : List WebUSBDevice) :
    (∃ e, (selectOutcome opts st1 devices).result = Except.error e ∧
      (selectOutcome opts st1 devices).state.authorisedDevices = st1.authorisedDevices)
    ∨ (∃ d, (selectOutcome opts st1 devices).result = Except.ok d ∧
      (selectOutcome opts st1 devices).state.authorisedDevices
        = st1.authorisedDevices ++ [snapshotOf d]) := by
  unfold selectOutcome
  dsimp only
  split
  · exact Or.inl ⟨_, rfl, rfl⟩
  · split
    · exact Or.inl ⟨_, rfl, rfl⟩
    · exact Or.inl ⟨_, rfl, rfl⟩
    · rename_i device _
      exact Or.inr ⟨device, rfl, rfl⟩

/-- Anatomy of the post-validation body of `requestDevice`: it either
throws, leaving `authorisedDevices` untouched, or returns a device after
appending exactly that device's snapshot. -/
theorem requestDeviceChecked_cases (adapt : RawDevice → Option WebUSBDevice)
    (opts : USBOptions) (st : WebUSBState) (rawList : List RawDevice)
    (fs : List USBDeviceFilter) :
    (∃ e, (requestDeviceChecked adapt opts st rawList fs).result = Except.error e ∧
      (requestDeviceChecked adapt opts st rawList fs).state.authorisedDevices
        = st.authorisedDevices)
    ∨ (∃ d, (requestDeviceChecked adapt opts st rawList fs).result = Except.ok d ∧
      (requestDeviceChecked adapt opts st rawList fs).state.authorisedDevices
        = st.authorisedDevices ++ [snapshotOf d]) := by
  have h := selectOutcome_cases opts (loadDevices adapt st rawList (some fs)).1
    ((loadDevices adapt st rawList (some fs)).2.filter
      (fun device => filterDevice device (some fs)))
  rw [loadDevices_authorised] at h
  exact h

/-- Anatomy of `requestDevice`: every throwing path leaves
`authorisedDevices` untouched; the single returning path appends exactly
the returned device's snapshot. -/
theorem requestDevice_cases (adapt : RawDevice → Option WebUSBDevice)
    (opts : USBOptions) (st : WebUSBState) (rawList : List RawDevice)
    (options : Option USBDeviceRequestOptions) :
    (∃ e, (requestDevice adapt opts st rawList options).result = Except.error e ∧
      (requestDevice adapt opts st rawList options).state.authorisedDevices
        = st.authorisedDevices)
    ∨ (∃ d, (requestDevice adapt opts st rawList options).result = Except.ok d ∧
      (requestDevice adapt opts st rawList options).state.authorisedDevices
        = st.authorisedDevices ++ [snapshotOf d]) := by
  cases options with
  | none => exact Or.inl ⟨_, rfl, rfl⟩
  | some o =>
    obtain ⟨ofs⟩ := o
    cases ofs with
    | none => exact Or.inl ⟨_, rfl, rfl⟩
    | some fs =>
      have hred : requestDevice adapt opts st rawList (some ⟨some fs⟩)
          = match checkFilters fs with
            | some e => ⟨Except.error e, st, 0⟩
            | none => requestDeviceChecked adapt opts st rawList fs := rfl
      rw [hred]
      cases checkFilters fs with
      | some e => exact Or.inl ⟨e, rfl, rfl⟩
      | none => exact requestDeviceChecked_cases adapt opts st rawList fs

theorem requestDevice_ok_snapshot (adapt : RawDevice → Option WebUSBDevice)
    (opts : USBOptions) (st : WebUSBState) (rawList : List RawDevice)
    (options : Option USBDeviceRequestOptions) (d : WebUSBDevice)
    (h : (requestDevice adapt opts st rawList options).result = Except.ok d) :
    snapshotOf d ∈ (requestDevice adapt opts st rawList options).state.authorisedDevices := by
  rcases requestDevice_cases adapt opts st rawList options with ⟨e, he, _⟩ | ⟨d', hd', hs⟩
  · rw [he] at h
    cases h
  · rw [hd'] at h
    cases h
    rw [hs]
    simp

theorem ifaceMatch_eq_spec (f : USBDeviceFilter) (i : USBInterface) :
    ifaceMatch f i = ifaceTripleSpec f i := by
  unfold ifaceMatch ifaceTripleSpec
  cases hc : natTruthy f.classCode <;>
    cases hs : natTruthy f.subclassCode <;>
      cases hp : natTruthy f.protocolCode <;>
        cases hc2 : f.classCode == some i.alternate.interfaceClass <;>
          cases hs2 : f.subclassCode == some i.alternate.interfaceSubclass <;>
            cases hp2 : f.protocolCode == some i.alternate.interfaceProtocol <;>
              simp [hc, hs, hp, hc2, hs2, hp2, bne]

theorem deviceLevelMatch_eq (device : WebUSBDevice) (f : USBDeviceFilter) :
    deviceLevelMatch device f
      = (classTripleDeviceLevel device f
          && (!strTruthy f.serialNumber || f.serialNumber == device.serialNumber)) := by
  unfold deviceLevelMatch classTripleDeviceLevel
  cases hc : natTruthy f.classCode <;>
    cases hs : natTruthy f.subclassCode <;>
      cases hp : natTruthy f.protocolCode <;>
        cases hx : strTruthy f.serialNumber <;>
          cases hc2 : f.classCode == some device.deviceClass <;>
            cases hs2 : f.subclassCode == some device.deviceSubclass <;>
              cases hp2 : f.protocolCode == some device.deviceProtocol <;>
                cases hx2 : f.serialNumber == device.serialNumber <;>
                  simp [hc, hs, hp, hx, hc2, hs2, hp2, hx2, bne]

/-- The per-filter test of `filterDevice` coincides with the amended
matcher. -/
theorem matchesFilter_eq_amended (device : WebUSBDevice) (f : USBDeviceFilter) :
    matchesFilter device f = matchesFilterAmended device f := by
  have hife : ifaceMatch f = ifaceTripleSpec f := funext (fun i => ifaceMatch_eq_spec f i)
  unfold matchesFilter matchesFilterAmended classTripleIfaceLevel
  rw [deviceLevelMatch_eq device f, hife]
  cases hcfg : device.configuration with
  | none =>
    cases hcl : natTruthy f.classCode <;>
      cases hv : natTruthy f.vendorId <;>
        cases hveq : f.vendorId == some device.vendorId <;>
          cases hpr : natTruthy f.productId <;>
            cases hpeq : f.productId == some device.productId <;>
              simp [hcl, hv, hveq, hpr, hpeq, bne]
  | some config =>
    cases hany : config.interfaces.any (ifaceTripleSpec f) <;>
      cases hcl : natTruthy f.classCode <;>
        cases hv : natTruthy f.vendorId <;>
          cases hveq : f.vendorId == some device.vendorId <;>
            cases hpr : natTruthy f.productId <;>
              cases hpeq : f.productId == some device.productId <;>
                simp [hany, hcl, hv, hveq, hpr, hpeq, bne]

theorem edgeEffects_self (n : Nat) : edgeEffects n n = [] := by
  by_cases h : n = 0 <;> simp [edgeEffects, h]

/-- One listener operation produces exactly the effects that the
listener-count transition prescribes, evolves the listener list as
specified, and preserves the subscription invariant. -/
theorem channelStep_spec (ch : ChannelState) (op : ListenerOp)
    (hinv : ch.subscribed = (ch.listeners.length != 0)) :
    ((channelStep ch op).1.listeners = listenersAfterOp ch.listeners op)
    ∧ ((channelStep ch op).2
        = edgeEffects ch.listeners.length (listenersAfterOp ch.listeners op).length)
    ∧ ((channelStep ch op).1.subscribed = ((channelStep ch op).1.listeners.length != 0)) := by
  cases op with
  | add l =>
    by_cases h : ch.listeners.length = 0
    · simp [channelStep, channelAdd, listenersAfterOp, edgeEffects, h]
    · simp [channelStep, channelAdd, listenersAfterOp, edgeEffects, h, hinv]
  | remove l =>
    by_cases hc : l ∈ ch.listeners
    · have hlen : ch.listeners.length ≠ 0 := by
        intro h0
        rw [List.length_eq_zero.mp h0] at hc
        simp at hc
      by_cases he : (ch.listeners.erase l).length = 0
      · simp [channelStep, channelRemove, listenersAfterOp, edgeEffects, hc, he, hlen]
      · have hel : (ch.listeners.erase l).length = ch.listeners.length - 1 :=
          List.length_erase_of_mem hc
        rw [hel] at he
        have hb1 : (ch.listeners.length != 0) = true := by simpa using hlen
        have hb2 : (ch.listeners.length - 1 != 0) = true := by simpa using he
        have hb : (ch.listeners.length != 0) = (ch.listeners.length - 1 != 0) := by
          rw [hb1, hb2]
        simp [channelStep, channelRemove, listenersAfterOp, edgeEffects, hc, he, hlen, hinv,
          hel, hb]
    · simp [channelStep, channelRemove, listenersAfterOp, hc, hinv, edgeEffects_self]

/-- Running a listener-operation sequence from a state satisfying the
subscription invariant yields exactly the specified effect trace and
re-establishes the invariant. -/
theorem channelRun_spec_from (ops : List ListenerOp) :
    ∀ ch : ChannelState, ch.subscribed = (ch.listeners.length != 0) →
    ((channelRun ch ops).2 = specEffects ch.listeners ops)
    ∧ ((channelRun ch ops).1.subscribed
        = ((channelRun ch ops).1.listeners.length != 0)) := by
  induction ops with
  | nil =>
    intro ch hinv
    exact ⟨rfl, hinv⟩
  | cons op ops ih =>
    intro ch hinv
    obtain ⟨hls, heff, hinv'⟩ := channelStep_spec ch op hinv
    have hrest := ih (channelStep ch op).1 hinv'
    constructor
    · show (channelStep ch op).2 ++ (channelRun (channelStep ch op).1 ops).2
        = specEffects ch.listeners (op :: ops)
      rw [heff, hrest.1, hls]
      rfl
    · exact hrest.2

/-- The selection step throws exactly the one `NotFoundError`, and it does
so exactly when the candidate list is empty, the callback fails, or the
callback returns no device. -/
theorem selectOutcome_notFound (opts : USBOptions) (st1 : WebUSBState)
    (devices : List WebUSBDevice) :
    (∀ e, (selectOutcome opts st1 devices).result = Except.error e →
      e = USBError.notFoundError noDeviceSelectedMessage)
    ∧ ((selectOutcome opts st1 devices).result
        = Except.error (USBError.notFoundError noDeviceSelectedMessage)
      ↔ (devices = []
          ∨ ∃ cb, opts.devicesFound = some cb
              ∧ (cb devices = Except.error () ∨ cb devices = Except.ok none))) := by
  cases devices with
  | nil =>
    have hres : (selectOutcome opts st1 []).result
        = Except.error (USBError.notFoundError noDeviceSelectedMessage) := rfl
    constructor
    · intro e he
      rw [hres] at he
      cases he
      rfl
    · rw [hres]
      exact ⟨fun _ => Or.inl rfl, fun _ => rfl⟩
  | cons a as =>
    cases hdf : opts.devicesFound with
    | none =>
      have hres : (selectOutcome opts st1 (a :: as)).result = Except.ok a := by
        simp [selectOutcome, hdf]
      constructor
      · intro e he
        rw [hres] at he
        cases he
      · rw [hres]
        constructor
        · intro h
          cases h
        · rintro (h | ⟨cb, hcb, _⟩)
          · cases h
          · cases hcb
    | some cb =>
      cases hcb : cb (a :: as) with
      | error u =>
        have hres : (selectOutcome opts st1 (a :: as)).result
            = Except.error (USBError.notFoundError noDeviceSelectedMessage) := by
          simp [selectOutcome, hdf, hcb]
        constructor
        · intro e he
          rw [hres] at he
          cases he
          rfl
        · rw [hres]
          refine ⟨fun _ => Or.inr ⟨cb, rfl, Or.inl ?_⟩, fun _ => rfl⟩
          rw [hcb]
      | ok o =>
        cases o with
        | none =>
          have hres : (selectOutcome opts st1 (a :: as)).result
              = Except.error (USBError.notFoundError noDeviceSelectedMessage) := by
            simp [selectOutcome, hdf, hcb]
          constructor
          · intro e he
            rw [hres] at he
            cases he
            rfl
          · rw [hres]
            exact ⟨fun _ => Or.inr ⟨cb, rfl, Or.inr hcb⟩, fun _ => rfl⟩
        | some w =>
          have hres : (selectOutcome opts st1 (a :: as)).result = Except.ok w := by
            simp [selectOutcome, hdf, hcb]
          constructor
          · intro e he
            rw [hres] at he
            cases he
          · rw [hres]
            constructor
            · intro h
              cases h
            · rintro (h | ⟨cb', hcb', h | h⟩)
              · cases h
              · cases hcb'
                rw [hcb] at h
                cases h
              · cases hcb'
                rw [hcb] at h
                cases h


/-- Claim C5: for every sequence of `addEventListener` /
`removeEventListener` calls on the connect channel, the backend effect
trace is exactly one subscription at each transition of the listener count
from zero to positive and exactly one unsubscription at each transition
back to zero (and nothing else), and after the sequence the backend
subscription is active iff the listener count is positive. -/
theorem channel_subscription_effects (ops : List ListenerOp) :
    ((channelRun initChannel ops).2 = specEffects [] ops)
    ∧ ((channelRun initChannel ops).1.subscribed
        = ((channelRun initChannel ops).1.listeners.length != 0)) :=
  channelRun_spec_from ops initChannel rfl

/-- Claim C8: filtering a device list with `filterDevice` under a fixed
filter list is idempotent. -/
theorem filterDevice_idempotent (ds : List WebUSBDevice)
    (fs : Option (List USBDeviceFilter)) :
    (ds.filter (fun d => filterDevice d fs)).filter (fun d => filterDevice d fs)
      = ds.filter (fun d => filterDevice d fs) := by
  induction ds with
  | nil => rfl
  | cons d rest ih =>
    by_cases h : filterDevice d fs
    · simp [List.filter_cons, h, ih]
    · simp [List.filter_cons, h, ih]

/-- Claim C9: a falsy filter field (numeric `0`, empty string) is treated
exactly like an absent field: it imposes no constraint in `quickFilter`'s
per-filter test nor `filterDevice`'s per-filter test, and `0` values do
not trigger `requestDevice`'s hierarchy validation, so `protocolCode 0`
without `subclassCode` (and `subclassCode 0` without `classCode`) pass
without a `TypeError`. -/
theorem falsy_filter_fields_unspecified (f : USBDeviceFilter) (rd : RawDevice)
    (d : WebUSBDevice) :
    (quickMatch rd { f with vendorId := some 0 } = quickMatch rd { f with vendorId := none })
    ∧ (quickMatch rd { f with productId := some 0 } = quickMatch rd { f with productId := none })
    ∧ (matchesFilter d { f with vendorId := some 0 } = matchesFilter d { f with vendorId := none })
    ∧ (matchesFilter d { f with productId := some 0 } = matchesFilter d { f with productId := none })
    ∧ (matchesFilter d { f with classCode := some 0 } = matchesFilter d { f with classCode := none })
    ∧ (matchesFilter d { f with subclassCode := some 0 } = matchesFilter d { f with subclassCode := none })
    ∧ (matchesFilter d { f with protocolCode := some 0 } = matchesFilter d { f with protocolCode := none })
    ∧ (matchesFilter d { f with serialNumber := some "" } = matchesFilter d { f with serialNumber := none })
    ∧ (filterHierarchyError { f with protocolCode := some 0 } = filterHierarchyError { f with protocolCode := none })
    ∧ (filterHierarchyError { f with subclassCode := some 0 } = filterHierarchyError { f with subclassCode := none })
    ∧ (filterHierarchyError { f with classCode := some 0 } = filterHierarchyError { f with classCode := none })
    ∧ (checkFilters [{ protocolCode := some 0 }] = none)
    ∧ (checkFilters [{ subclassCode := some 0 }] = none) := by
  refine ⟨?_, ?_, ?_, ?_, ?_, ?_, ?_, ?_, ?_, ?_, ?_, ?_, ?_⟩ <;>
    simp [quickMatch, matchesFilter, deviceLevelMatch, ifaceMatch, filterHierarchyError,
      checkFilters, natTruthy, strTruthy]

/-- Claim C4: a filter list containing a filter with truthy `protocolCode`
but no truthy `subclassCode`, or truthy `subclassCode` but no truthy
`classCode`, makes `requestDevice` throw a `TypeError` before any backend
call: the state is unchanged and no enumeration (hence no adaptation)
happens. -/
theorem requestDevice_hierarchy_typeError (adapt : RawDevice → Option WebUSBDevice)
    (opts : USBOptions) (st : WebUSBState) (rawList : List RawDevice)
    (fs : List USBDeviceFilter)
    (hBad : ∃ f ∈ fs, (natTruthy f.protocolCode = true ∧ natTruthy f.subclassCode = false)
        ∨ (natTruthy f.subclassCode = true ∧ natTruthy f.classCode = false)) :
    (∃ msg, (requestDevice adapt opts st rawList (some ⟨some fs⟩)).result
        = Except.error (USBError.typeError msg))
    ∧ (requestDevice adapt opts st rawList (some ⟨some fs⟩)).state = st
    ∧ (requestDevice adapt opts st rawList (some ⟨some fs⟩)).backendCalls = 0 := by
  obtain ⟨e, he⟩ := checkFilters_of_bad fs hBad
  obtain ⟨msg, hmsg⟩ := checkFilters_typeError fs e he
  have hred : requestDevice adapt opts st rawList (some ⟨some fs⟩)
      = match checkFilters fs with
        | some e => ⟨Except.error e, st, 0⟩
        | none => requestDeviceChecked adapt opts st rawList fs := rfl
  rw [hred, he]
  exact ⟨⟨msg, by rw [hmsg]⟩, rfl, rfl⟩

/-- Witness for claim C4 at the filter `{protocolCode := 1}`. -/
theorem requestDevice_hierarchy_typeError_witness :
    (∃ msg, (requestDevice adaptA optsEmpty stEmpty [rawA]
        (some ⟨some [{ protocolCode := some 1 }]⟩)).result
          = Except.error (USBError.typeError msg))
    ∧ (requestDevice adaptA optsEmpty stEmpty [rawA]
        (some ⟨some [{ protocolCode := some 1 }]⟩)).state = stEmpty
    ∧ (requestDevice adaptA optsEmpty stEmpty [rawA]
        (some ⟨some [{ protocolCode := some 1 }]⟩)).backendCalls = 0 :=
  requestDevice_hierarchy_typeError adaptA optsEmpty stEmpty [rawA]
    [{ protocolCode := some 1 }] (by decide)

/-- Claim C10: every throwing `requestDevice` call leaves the
`authorisedDevices` set unchanged, and a returning call appends exactly
the snapshot of the returned device. -/
theorem requestDevice_authorisation_effect (adapt : RawDevice → Option WebUSBDevice)
    (opts : USBOptions) (st : WebUSBState) (rawList : List RawDevice)
    (options : Option USBDeviceRequestOptions) :
    (∀ e, (requestDevice adapt opts st rawList options).result = Except.error e →
      (requestDevice adapt opts st rawList options).state.authorisedDevices
        = st.authorisedDevices)
    ∧ (∀ d, (requestDevice adapt opts st rawList options).result = Except.ok d →
      (requestDevice adapt opts st rawList options).state.authorisedDevices
        = st.authorisedDevices ++ [snapshotOf d]) := by
  rcases requestDevice_cases adapt opts st rawList options with ⟨e', he, hs⟩ | ⟨d', hd, hs⟩
  · constructor
    · intro e _
      exact hs
    · intro d hd
      rw [he] at hd
      cases hd
  · constructor
    · intro e he2
      rw [hd] at he2
      cases he2
    · intro d hd2
      rw [hd] at hd2
      cases hd2
      exact hs

/-- Witness for claim C10 at a throwing call (missing options). -/
theorem requestDevice_authorisation_effect_witness :
    (requestDevice adaptA optsEmpty stEmpty [rawA] none).state.authorisedDevices
      = stEmpty.authorisedDevices :=
  (requestDevice_authorisation_effect adaptA optsEmpty stEmpty [rawA] none).1
    (USBError.typeError "requestDevice error: 1 argument required, but only 0 present") rfl

/-- Claim C6: under well-formed options, every error `requestDevice`
throws is the one `NotFoundError` (same name, same message), and it is
thrown exactly when no devices survive filtering, or the selection
callback fails, or the selection callback returns no device. -/
theorem requestDevice_notFoundError_iff (adapt : RawDevice → Option WebUSBDevice)
    (opts : USBOptions) (st : WebUSBState) (rawList : List RawDevice)
    (fs : List USBDeviceFilter) (hWF : checkFilters fs = none) :
    (∀ e, (requestDevice adapt opts st rawList (some ⟨some fs⟩)).result = Except.error e →
      e = USBError.notFoundError noDeviceSelectedMessage)
    ∧ ((requestDevice adapt opts st rawList (some ⟨some fs⟩)).result
        = Except.error (USBError.notFoundError noDeviceSelectedMessage)
      ↔ (((loadDevices adapt st rawList (some fs)).2.filter
            (fun device => filterDevice device (some fs))) = []
        ∨ ∃ cb, opts.devicesFound = some cb
            ∧ (cb ((loadDevices adapt st rawList (some fs)).2.filter
                  (fun device => filterDevice device (some fs))) = Except.error ()
              ∨ cb ((loadDevices adapt st rawList (some fs)).2.filter
                  (fun device => filterDevice device (some fs))) = Except.ok none))) := by
  have hred : requestDevice adapt opts st rawList (some ⟨some fs⟩)
      = selectOutcome opts (loadDevices adapt st rawList (some fs)).1
          ((loadDevices adapt st rawList (some fs)).2.filter
            (fun device => filterDevice device (some fs))) := by
    have h0 : requestDevice adapt opts st rawList (some ⟨some fs⟩)
        = match checkFilters fs with
          | some e => ⟨Except.error e, st, 0⟩
          | none => requestDeviceChecked adapt opts st rawList fs := rfl
    rw [h0, hWF]
    rfl
  rw [hred]
  exact selectOutcome_notFound opts _ _

/-- Witness for claim C6: an empty backend list yields the
`NotFoundError`. -/
theorem requestDevice_notFoundError_iff_witness :
    (requestDevice adaptA optsEmpty stEmpty [] (some ⟨some []⟩)).result
      = Except.error (USBError.notFoundError noDeviceSelectedMessage) :=
  ((requestDevice_notFoundError_iff adaptA optsEmpty stEmpty [] [] rfl).2).mpr
    (Or.inl rfl)

theorem filter_const_true (l : List WebUSBDevice) :
    l.filter (fun _ => true) = l := by
  induction l with
  | nil => rfl
  | cons a as ih => simp [List.filter_cons, ih]

/-- Claim C7: with `allowAllDevices` set, `getDevices` returns exactly the
un-pre-filtered load result — independent of `allowedDevices` and of the
`authorisedDevices` set — and every backend device that is cached or
freshly adaptable contributes its adapted device to the result. -/
theorem getDevices_allowAllDevices (adapt : RawDevice → Option WebUSBDevice)
    (df : Option (List WebUSBDevice → Except Unit (Option WebUSBDevice)))
    (ad : Option (List USBDeviceFilter)) (dt : Option Nat) (adk : Option Bool)
    (k : KnownMap) (au : List USBDeviceFilter) (rawList : List RawDevice) :
    ((getDevices adapt ⟨df, ad, true, dt, adk⟩ ⟨k, au⟩ rawList).2
        = mapValues (loadDevicesLoop adapt rawList k []).2)
    ∧ (∀ r d, r ∈ rawList →
        (mapGet k r = some d ∨ (mapGet k r = none ∧ adapt r = some d)) →
        d ∈ (getDevices adapt ⟨df, ad, true, dt, adk⟩ ⟨k, au⟩ rawList).2) := by
  have heq : (getDevices adapt ⟨df, ad, true, dt, adk⟩ ⟨k, au⟩ rawList).2
      = mapValues (loadDevicesLoop adapt rawList k []).2 := by
    unfold getDevices loadDevices
    dsimp only
    simp [quickFilter, isAuthorisedDevice, filter_const_true]
  refine ⟨heq, ?_⟩
  intro r d hr hP
  rw [heq]
  exact mapGet_mem_values _ r d (loadDevicesLoop_get adapt r d rawList k [] hP (Or.inl hr))

/-- Witness for claim C7: `deviceA`, freshly adapted from `rawA`, appears
in the result. -/
theorem getDevices_allowAllDevices_witness :
    deviceA ∈ (getDevices adaptA ⟨none, none, true, none, none⟩ ⟨[], []⟩ [rawA]).2 :=
  (getDevices_allowAllDevices adaptA none none none none [] [] [rawA]).2 rawA deviceA
    (by decide) (Or.inr ⟨rfl, by decide⟩)

/-- Claim C2 counterexample: the disconnect handler emits the event for a
known authorised device but does *not* remove the device's entry from
`knownDevices` — the entry is still present afterwards, contradicting the
claimed removal. -/
theorem deviceDisconnectCallback_keeps_entry :
    (deviceDisconnectCallback optsAllowAll stKnownA rawA).events = [deviceA]
    ∧ mapGet (deviceDisconnectCallback optsAllowAll stKnownA rawA).state.knownDevices rawA
        = some deviceA := by
  constructor
  · rfl
  · rfl

/-- Claim C2 (amended): on a raw detach event for a device present in
`knownDevices` with an authorised cached adapted device, the handler emits
a `disconnect` notification carrying that cached device; a device never
successfully adapted (absent from `knownDevices`) produces no
notification; and in all cases the state — the `knownDevices` entry
included — is left unchanged (stale entries are only dropped by the next
enumeration in `loadDevices`). -/
theorem deviceDisconnectCallback_spec (opts : USBOptions) (st : WebUSBState)
    (rd : RawDevice) :
    ((deviceDisconnectCallback opts st rd).state = st)
    ∧ (∀ w, mapGet st.knownDevices rd = some w →
        (deviceDisconnectCallback opts st rd).events
          = (if isAuthorisedDevice opts st.authorisedDevices w then [w] else []))
    ∧ (mapGet st.knownDevices rd = none →
        (deviceDisconnectCallback opts st rd).events = []) := by
  refine ⟨?_, ?_, ?_⟩
  · unfold deviceDisconnectCallback
    split
    · split
      · split
        · rfl
        · rfl
      · rfl
    · rfl
  · intro w hw
    by_cases hauth : isAuthorisedDevice opts st.authorisedDevices w = true
    · simp [deviceDisconnectCallback, hw, hauth]
    · simp [deviceDisconnectCallback, hw, hauth]
  · intro hnone
    simp [deviceDisconnectCallback, hnone]

/-- Witness for claim C2 at the known authorised device `deviceA`. -/
theorem deviceDisconnectCallback_spec_witness :
    (deviceDisconnectCallback optsAllowAll stKnownA rawA).events
      = (if isAuthorisedDevice optsAllowAll stKnownA.authorisedDevices deviceA
          then [deviceA] else []) :=
  (deviceDisconnectCallback_spec optsAllowAll stKnownA rawA).2.1 deviceA (by decide)

/-- Claim C3 counterexample: `filterDevice` accepts `deviceC3` against
`filterC3` although the filter's serial number (`X`) differs from the
device's (`Y`): the interface-level class match returns immediately and
the serial-number check is skipped, so the claimed matcher (which always
enforces the serial constraint) disagrees with the code. -/
theorem filterDevice_claim_counterexample :
    filterDevice deviceC3 (some [filterC3]) = true
    ∧ [filterC3].any (matchesFilterClaim deviceC3) = false := by
  constructor
  · rfl
  · rfl

/-- Claim C3 (amended): for a non-empty filter list, `filterDevice`
matches iff some filter matches per `matchesFilterAmended`: vendorId and
productId (when specified) must equal the device's fields; when
`classCode` is specified the device must have a configuration, and either
some interface's active alternate satisfies the class triple (in which
case the serial number is not consulted), or the device-level class triple
and the serial number (when specified) must agree; when `classCode` is
unspecified the device-level subclass/protocol and serial checks apply. -/
theorem filterDevice_characterisation (device : WebUSBDevice)
    (fs : List USBDeviceFilter) (hne : fs ≠ []) :
    filterDevice device (some fs) = fs.any (matchesFilterAmended device) := by
  have hf : fs.isEmpty = false := by
    cases fs with
    | nil => exact absurd rfl hne
    | cons a as => rfl
  have hfe : matchesFilter device = matchesFilterAmended device :=
    funext (matchesFilter_eq_amended device)
  simp only [filterDevice, hf, Bool.false_eq_true, if_false, hfe]

/-- Witness for claim C3 at the composite device `deviceC3`. -/
theorem filterDevice_characterisation_witness :
    filterDevice deviceC3 (some [filterC3])
      = [filterC3].any (matchesFilterAmended deviceC3) :=
  filterDevice_characterisation deviceC3 [filterC3] (by decide)


/-- Claim C1 counterexample: `requestDevice` returns (and authorises)
`deviceA`, which matches no `allowedDevices` filter; the subsequent
`getDevices()` call (same backend list, `allowAllDevices` false)
nevertheless does not contain it, because `loadDevices` pre-filters the
backend list with `allowedDevices` and drops `rawA` before the
authorisation gate can see it. -/
theorem getDevices_prefilter_excludes_authorised :
    (requestDevice adaptA optsC1 stEmpty [rawA] (some reqOptsA)).result = Except.ok deviceA
    ∧ optsC1.allowAllDevices = false
    ∧ filterDevice deviceA optsC1.allowedDevices = false
    ∧ deviceA ∉ (getDevices adaptA optsC1
        (requestDevice adaptA optsC1 stEmpty [rawA] (some reqOptsA)).state [rawA]).2 := by
  refine ⟨rfl, rfl, by decide, by decide⟩

/-- Claim C1 (amended): a device `d` returned by a successful
`requestDevice` call appears in a subsequent `getDevices()` result (same
backend list, `allowAllDevices` false) provided the raw device `r` backing
`d` also survives the vendor/product `quickFilter` over the configured
`allowedDevices` (in particular whenever `allowedDevices` is absent or
empty); without that proviso the pre-filter can exclude `d` despite its
ad-hoc authorisation. -/
theorem requestDevice_then_getDevices (adapt : RawDevice → Option WebUSBDevice)
    (opts : USBOptions) (st : WebUSBState) (rawList : List RawDevice)
    (options : Option USBDeviceRequestOptions) (d : WebUSBDevice) (r : RawDevice)
    (hAllow : opts.allowAllDevices = false)
    (hOk : (requestDevice adapt opts st rawList options).result = Except.ok d)
    (hKnown : mapGet (requestDevice adapt opts st rawList options).state.knownDevices r
        = some d)
    (hSurvive : r ∈ quickFilter rawList opts.allowedDevices) :
    d ∈ (getDevices adapt opts
        (requestDevice adapt opts st rawList options).state rawList).2 := by
  have hsnap : snapshotOf d
      ∈ (requestDevice adapt opts st rawList options).state.authorisedDevices :=
    requestDevice_ok_snapshot adapt opts st rawList options d hOk
  set st' := (requestDevice adapt opts st rawList options).state with hst'
  have hmem : d ∈ (loadDevices adapt st' rawList opts.allowedDevices).2 := by
    unfold loadDevices
    dsimp only
    exact mapGet_mem_values _ r d
      (loadDevicesLoop_get adapt r d (quickFilter rawList opts.allowedDevices)
        st'.knownDevices [] (Or.inl hKnown) (Or.inl hSurvive))
  have hauth : isAuthorisedDevice opts
      (loadDevices adapt st' rawList opts.allowedDevices).1.authorisedDevices d = true := by
    rw [loadDevices_authorised]
    exact isAuthorisedDevice_of_snapshot opts st'.authorisedDevices d hsnap
  unfold getDevices
  dsimp only
  rw [hAllow]
  simp only [Bool.false_eq_true, if_false]
  exact List.mem_filter.mpr ⟨hmem, hauth⟩

/-- Witness for claim C1: with no `allowedDevices` configured, the device
returned by `requestDevice` shows up in `getDevices()`. -/
theorem requestDevice_then_getDevices_witness :
    deviceA ∈ (getDevices adaptA optsEmpty
      (requestDevice adaptA optsEmpty stEmpty [rawA] (some reqOptsA)).state [rawA]).2 :=
  requestDevice_then_getDevices adaptA optsEmpty stEmpty [rawA] (some reqOptsA) deviceA rawA
    rfl rfl rfl (by decide)
